import Mathlib

/-!
# Verification of the crazy_rmm remote-support agent

Shallow embedding of the session transport engine of the `crazy_rmm`
repository: the console agent `src/client.py` and the Windows agent
`src/winclient/client_windows.py`.  The two files duplicate the input
translator, screen capturer and most of the network client; where the
code is literally identical (the `InputHandler` and the downsizing logic
of `ScreenCapturer.capture`) one Lean definition embeds both, and where
they differ (the receive loops) each variant gets its own definition.

Python floats are modelled as rationals (`ℚ`), Python ints as `ℤ`/`ℕ`,
a decoded JSON object as an association list from field names to JSON
values, and Python exceptions as an explicit error type threaded through
`Except`.
-/

/-- A decoded JSON value, as produced by `json.loads`, restricted to the
shapes the agent actually reads: strings, numbers, and lists of key-name
strings (the only list the agent ever iterates is the `keys` field of a
`key_combo` message). -/
inductive JVal where
  | jstr (s : String)
  | jnum (q : ℚ)
  | jlist (ss : List String)
  deriving DecidableEq, Repr

/-- A decoded JSON object: an association list of fields, looked up by
name (Python `dict` access). -/
def Msg := List (String × JVal)

/-- `msg.get(k)` / `k in msg`: first binding of field `k`, if any. -/
def Msg.get? (m : Msg) (k : String) : Option JVal :=
  match m with
  | [] => none
  | (k', v) :: rest => if k' = k then some v else Msg.get? rest k

/-- `msg.get(k, d)`: field `k`, defaulting to `d` when absent. -/
def Msg.getD (m : Msg) (k : String) (d : JVal) : JVal :=
  (m.get? k).getD d

/-- The `type` discriminator of a decoded message: `msg.get("type")`,
viewed as a string (a non-string or missing `type` matches none of the
string comparisons in the dispatch chains). -/
def Msg.type? (m : Msg) : Option String :=
  match m.get? "type" with
  | some (JVal.jstr s) => some s
  | _ => none

/-- A Python exception as raised by the embedded code paths. -/
inductive PyErr where
  | keyError (field : String)   -- `msg["k"]` with `k` absent
  | typeError                   -- a field of the wrong runtime type
  | providerFault (e : String)  -- raised by pyautogui / capture / transport
  deriving DecidableEq, Repr

/-- Python `int(q)` on a float: truncation toward zero. -/
def pyInt (q : ℚ) : ℤ :=
  if 0 ≤ q then ⌊q⌋ else ⌈q⌉

/-- `InputHandler.__init__`: the screen geometry captured at startup
(`client.py` 78–80, `client_windows.py` 68–70). -/
structure InputHandler where
  screen_width : ℕ
  screen_height : ℕ

/-- `InputHandler._scale_coords` (`client.py` 101–103) and the identical
`InputHandler._scale` (`client_windows.py` 100–101):
`int(x_ratio * screen_width), int(y_ratio * screen_height)`. -/
def InputHandler.scale_coords (h : InputHandler) (x_ratio y_ratio : ℚ) : ℤ × ℤ :=
  (pyInt (x_ratio * h.screen_width), pyInt (y_ratio * h.screen_height))

/-- `InputHandler.KEY_MAP` (`client.py` 62–72, identical in
`client_windows.py` 54–64): JS key names → pyautogui key names. -/
def KEY_MAP : List (String × String) :=
  [("Enter", "enter"), ("Backspace", "backspace"), ("Tab", "tab"),
   ("Escape", "escape"), ("Delete", "delete"), ("Insert", "insert"),
   ("Home", "home"), ("End", "end"), ("PageUp", "pageup"), ("PageDown", "pagedown"),
   ("ArrowUp", "up"), ("ArrowDown", "down"), ("ArrowLeft", "left"), ("ArrowRight", "right"),
   ("Control", "ctrl"), ("Shift", "shift"), ("Alt", "alt"), ("Meta", "win"),
   ("CapsLock", "capslock"), ("NumLock", "numlock"), ("ScrollLock", "scrolllock"),
   ("F1", "f1"), ("F2", "f2"), ("F3", "f3"), ("F4", "f4"), ("F5", "f5"), ("F6", "f6"),
   ("F7", "f7"), ("F8", "f8"), ("F9", "f9"), ("F10", "f10"), ("F11", "f11"), ("F12", "f12"),
   (" ", "space")]

/-- `KEY_MAP.get(k)`: lookup in the key table. -/
def lookupKM (k : String) : Option String :=
  match KEY_MAP.find? (fun p => p.1 = k) with
  | some p => some p.2
  | none => none

/-- Python `key.lower()`, modelled character-wise over the ASCII range
(all keys in the agent's vocabulary are ASCII; `Char.toLower` lowers
exactly the ASCII letters). -/
def pyLower (s : String) : String :=
  String.mk (s.data.map Char.toLower)

/-- `self.KEY_MAP.get(key, key.lower() if len(key) == 1 else key)`
(`client.py` 126 and 131, `client_windows.py` 91 and 95). -/
def mapKey (k : String) : String :=
  match lookupKM k with
  | some v => v
  | none => if k.length = 1 then pyLower k else k

/-- `MOUSE_BUTTON_MAP = {0: "left", 1: "middle", 2: "right"}` together
with `.get(b, "left")` (`client.py` 74–76 and 111/116,
`client_windows.py` 66 and 80/84).  The argument is the raw JSON value of
the `button` field after `msg.get("button", 0)`. -/
def resolveButton (v : JVal) : String :=
  if v = JVal.jnum 0 then "left"
  else if v = JVal.jnum 1 then "middle"
  else if v = JVal.jnum 2 then "right"
  else "left"

/-- A resolved native injection call into pyautogui. -/
inductive NativeAction where
  | moveTo (x y : ℤ)
  | click (x y : ℤ) (button : String)
  | doubleClick (x y : ℤ) (button : String)
  | scroll (clicks : JVal) (x y : ℤ)
  | press (key : String)
  | hotkey (keys : List String)
  deriving DecidableEq, Repr

/-- `msg[k]`: raises `KeyError` when the field is absent. -/
def getField (m : Msg) (k : String) : Except PyErr JVal :=
  match m.get? k with
  | some v => Except.ok v
  | none => Except.error (PyErr.keyError k)

/-- Using a JSON value where a number is required; anything else raises. -/
def asNum : JVal → Except PyErr ℚ
  | JVal.jnum q => Except.ok q
  | _ => Except.error PyErr.typeError

/-- Using a JSON value where a string key name is required
(`len(key)` / `key.lower()` raise on non-strings). -/
def asStr : JVal → Except PyErr String
  | JVal.jstr s => Except.ok s
  | _ => Except.error PyErr.typeError

/-- Iterating the `keys` field as a list of key-name strings; a
non-list value raises. -/
def asStrList : JVal → Except PyErr (List String)
  | JVal.jlist ss => Except.ok ss
  | _ => Except.error PyErr.typeError

/-- `x, y = self._scale_coords(msg["x"], msg["y"])`: both fields are
fetched (KeyError when absent), must be numbers, then scaled. -/
def resolveXY (h : InputHandler) (m : Msg) : Except PyErr (ℤ × ℤ) := do
  let xv ← getField m "x"
  let yv ← getField m "y"
  let xq ← asNum xv
  let yq ← asNum yv
  Except.ok (h.scale_coords xq yq)

/-- The body of the `try:` block of `InputHandler.handle` (`client.py`
85–97, `client_windows.py` 74–96): dispatch on the message type, resolve
the fields and perform the native injection call, any step of which may
raise.  The injection provider `inj` models pyautogui and may itself
raise a `providerFault`. -/
def handleBody (h : InputHandler) (inj : NativeAction → Except PyErr Unit)
    (m : Msg) : Except PyErr Unit :=
  let t := m.type?
  if t = some "mouse_move" then do
    let p ← resolveXY h m
    inj (NativeAction.moveTo p.1 p.2)
  else if t = some "mouse_click" then do
    let p ← resolveXY h m
    let btn := resolveButton (m.getD "button" (JVal.jnum 0))
    inj (NativeAction.click p.1 p.2 btn)
  else if t = some "mouse_double_click" then do
    let p ← resolveXY h m
    let btn := resolveButton (m.getD "button" (JVal.jnum 0))
    inj (NativeAction.doubleClick p.1 p.2 btn)
  else if t = some "mouse_scroll" then do
    let p ← resolveXY h m
    let clicks := m.getD "delta" (JVal.jnum 0)
    inj (NativeAction.scroll clicks p.1 p.2)
  else if t = some "key_press" then do
    let kv := m.getD "key" (JVal.jstr "")
    let k ← asStr kv
    inj (NativeAction.press (mapKey k))
  else if t = some "key_combo" then do
    let kv := m.getD "keys" (JVal.jlist [])
    let ks ← asStrList kv
    inj (NativeAction.hotkey (ks.map mapKey))
  else Except.ok ()

/-- Outcome of `InputHandler.handle` as seen by its caller. -/
inductive HandleResult where
  | ok                       -- returned normally, action (if any) succeeded
  | logged (e : PyErr)       -- an exception was caught and printed
  deriving DecidableEq, Repr

/-- `InputHandler.handle` (`client.py` 82–99, `client_windows.py` 72–98):
the whole dispatch body runs inside `try: ... except Exception as e:`
which prints the error; the overall call is still fallible in the model
(`Except`) so that a propagated exception would be visible as
`Except.error`. -/
def InputHandler.handle (h : InputHandler) (inj : NativeAction → Except PyErr Unit)
    (m : Msg) : Except PyErr HandleResult :=
  Except.ok (match handleBody h inj m with
             | Except.ok _ => HandleResult.ok
             | Except.error e => HandleResult.logged e)


/-! ## The screen-capture pipeline (`ScreenCapturer.capture`) -/

/-- The dimension policy of `ScreenCapturer.capture` (`client.py`
160–163, identical in `client_windows.py` 127–130): if either raw
dimension exceeds `max_dim`, compute `ratio = min(max_dim / w,
max_dim / h)` in float arithmetic and resize to
`(int(w * ratio), int(h * ratio))`; otherwise leave the image size
unchanged. -/
def capture_dims (max_dim w h : ℕ) : ℤ × ℤ :=
  if w > max_dim ∨ h > max_dim then
    let ratio : ℚ := min ((max_dim : ℚ) / (w : ℚ)) ((max_dim : ℚ) / (h : ℚ))
    (pyInt ((w : ℚ) * ratio), pyInt ((h : ℚ) * ratio))
  else ((w : ℤ), (h : ℤ))

/-! ## Session state and the control channel -/

/-- The mutable per-session fields of `RemoteSupportClient.__init__`
(`client.py` 179–183) / `NetworkClient.__init__` (`client_windows.py`
148–151) that the receive loop reads or writes.  `connected` exists only
in the console variant; the Windows variant's extra callback plumbing
carries no session state. -/
structure ClientState where
  session_id : Option JVal
  pin : Option JVal
  operator_connected : Bool
  running : Bool
  deriving DecidableEq, Repr

/-- One inbound transport message as the receive loop sees it: a binary
frame, a text payload `json.loads` rejects (`JSONDecodeError`), or a
decoded JSON object. -/
inductive Inbound where
  | binary
  | badText
  | msg (fields : Msg)

/-- A message the agent writes back to the relay from inside the receive
loop. -/
inductive OutMsg where
  | screenInfo (width height : ℕ)
  deriving DecidableEq, Repr

/-- Result of processing one inbound message in the receive loop. -/
inductive RecvResult where
  | cont (c : ClientState) (sent : List OutMsg)  -- loop continues
  | brk (c : ClientState)                        -- `break`: loop ends normally
  | raised (e : PyErr) (c : ClientState)         -- an uncaught exception
  deriving Repr

/-- The six input-event message types (`client.py` 294–295,
`client_windows.py` 252–253). -/
def inputTypes : List String :=
  ["mouse_move", "mouse_click", "mouse_double_click",
   "mouse_scroll", "key_press", "key_combo"]

/-- `t in ("mouse_move", ..., "key_combo")` for the possibly-absent
`type` discriminator. -/
def isInputType (t : Option String) : Bool :=
  match t with
  | some s => s ∈ inputTypes
  | none => false

/-- One iteration of `RemoteSupportClient._receive_messages`
(`client.py` 258–301) on an already-received transport message:
binary payloads and undecodable text are skipped with `continue`;
otherwise the decoded object is classified by its `type` field.
`registered` assigns `session_id` then `pin` (each raising `KeyError`
when absent, after any earlier assignment has already happened) and then
sends `screen_info` with the capture geometry; the presence messages
toggle `operator_connected`; the six input types are forwarded to
`InputHandler.handle` (which never raises); `client_disconnected`
clears `running` and breaks; anything else falls through the `elif`
chain and is ignored. -/
def recvStep (h : InputHandler) (inj : NativeAction → Except PyErr Unit)
    (c : ClientState) (m : Inbound) : RecvResult :=
  match m with
  | Inbound.binary => RecvResult.cont c []
  | Inbound.badText => RecvResult.cont c []
  | Inbound.msg fs =>
    let t := fs.type?
    if t = some "registered" then
      match fs.get? "sessionId" with
      | none => RecvResult.raised (PyErr.keyError "sessionId") c
      | some sid =>
        let c1 := { c with session_id := some sid }
        match fs.get? "pin" with
        | none => RecvResult.raised (PyErr.keyError "pin") c1
        | some p =>
          RecvResult.cont { c1 with pin := some p }
            [OutMsg.screenInfo h.screen_width h.screen_height]
    else if t = some "operator_connected" then
      RecvResult.cont { c with operator_connected := true } []
    else if t = some "operator_disconnected" then
      RecvResult.cont { c with operator_connected := false } []
    else if isInputType t then
      match h.handle inj fs with
      | _ => RecvResult.cont c []
    else if t = some "client_disconnected" then
      RecvResult.brk { c with running := false }
    else
      RecvResult.cont c []

/-- One iteration of `NetworkClient._receive_messages`
(`client_windows.py` 220–254).  Identical to the console variant except
that status/PIN callbacks replace printing and — notably — there is no
`client_disconnected` branch at all: that type falls through the `elif`
chain like any unrecognized type. -/
def recvStepWin (h : InputHandler) (inj : NativeAction → Except PyErr Unit)
    (c : ClientState) (m : Inbound) : RecvResult :=
  match m with
  | Inbound.binary => RecvResult.cont c []
  | Inbound.badText => RecvResult.cont c []
  | Inbound.msg fs =>
    let t := fs.type?
    if t = some "registered" then
      match fs.get? "sessionId" with
      | none => RecvResult.raised (PyErr.keyError "sessionId") c
      | some sid =>
        let c1 := { c with session_id := some sid }
        match fs.get? "pin" with
        | none => RecvResult.raised (PyErr.keyError "pin") c1
        | some p =>
          RecvResult.cont { c1 with pin := some p }
            [OutMsg.screenInfo h.screen_width h.screen_height]
    else if t = some "operator_connected" then
      RecvResult.cont { c with operator_connected := true } []
    else if t = some "operator_disconnected" then
      RecvResult.cont { c with operator_connected := false } []
    else if isInputType t then
      match h.handle inj fs with
      | _ => RecvResult.cont c []
    else
      RecvResult.cont c []

/-- How the whole receive loop ends. -/
inductive LoopResult where
  | finished (c : ClientState)            -- stream ended or `break`
  | raised (e : PyErr) (c : ClientState)  -- an uncaught exception escaped
  deriving Repr

/-- `_receive_messages` as a loop over a finite inbound stream: the
`async for` consumes messages in order until the stream closes, the loop
breaks, or an exception escapes. -/
def recvLoop (h : InputHandler) (inj : NativeAction → Except PyErr Unit) :
    ClientState → List Inbound → LoopResult
  | c, [] => LoopResult.finished c
  | c, m :: ms =>
    match recvStep h inj c m with
    | RecvResult.cont c' _ => recvLoop h inj c' ms
    | RecvResult.brk c' => LoopResult.finished c'
    | RecvResult.raised e c' => LoopResult.raised e c'

/-- `NetworkClient._receive_messages` as a loop over a finite inbound
stream, iterating `recvStepWin`. -/
def recvLoopWin (h : InputHandler) (inj : NativeAction → Except PyErr Unit) :
    ClientState → List Inbound → LoopResult
  | c, [] => LoopResult.finished c
  | c, m :: ms =>
    match recvStepWin h inj c m with
    | RecvResult.cont c' _ => recvLoopWin h inj c' ms
    | RecvResult.brk c' => LoopResult.finished c'
    | RecvResult.raised e c' => LoopResult.raised e c'

/-- After a session ends, `RemoteSupportClient.run` (`client.py`
193–215) sleeps and re-enters `websockets.connect` exactly when
`self.running` is still true (`while self.running` at line 193 and
`if self.running` at line 214); `NetworkClient._connect_loop`
(`client_windows.py` 164–186) is the same.  So the supervisor re-enters
the Connecting state after the receive loop ends iff this flag holds. -/
def reconnects (c : ClientState) : Bool := c.running

/-- Every message type with a dedicated branch in the console receive
loop (`client.py` 270–301). -/
def recognizedTypes : List String :=
  ["registered", "operator_connected", "operator_disconnected",
   "mouse_move", "mouse_click", "mouse_double_click",
   "mouse_scroll", "key_press", "key_combo", "client_disconnected"]

/-- Concrete objects used by the closed witness/counterexample theorems. -/
def h0 : InputHandler := InputHandler.mk 1920 1080

/-- An injection provider that always succeeds. -/
def inj0 : NativeAction → Except PyErr Unit := fun _ => Except.ok ()

/-- A freshly-registered session state with the loop still running. -/
def s0 : ClientState := ClientState.mk none none false true

/-- The decoded form of `{"type": "client_disconnected"}`. -/
def discMsg : Msg := [("type", JVal.jstr "client_disconnected")]

/-! ## The frame-streaming loop (`_send_frames`) -/

/-- An observable event of one frame-loop iteration. -/
inductive FrameEvent where
  | capture            -- `await asyncio.to_thread(self.capturer.capture)`
  | send               -- `await self.ws.send(frame)`
  | sleep (d : ℚ)      -- `await asyncio.sleep(d)`
  deriving DecidableEq, Repr

/-- Whether the iteration falls through to the next loop test or breaks
out of the loop, together with the events it performed in order. -/
inductive IterResult where
  | next (events : List FrameEvent)
  | brk (events : List FrameEvent)
  deriving DecidableEq, Repr

/-- The events an iteration performed, in order. -/
def IterResult.trace : IterResult → List FrameEvent
  | IterResult.next es => es
  | IterResult.brk es => es

/-- One iteration of `RemoteSupportClient._send_frames` (`client.py`
239–256) / `NetworkClient._send_frames` (`client_windows.py` 205–218),
entered with the loop condition already true.  `interval = 1.0 / fps` is
computed once before the loop.  With no operator attached the iteration
only sleeps 0.5.  With an operator attached it captures one frame (the
capture may raise), sends it (the send may raise), then sleeps
`max(0, interval - elapsed)`; any exception breaks out of the loop
without sleeping.  `elapsed` is the externally measured wall time
`time.monotonic() - t0` of the capture and send. -/
def sendFramesIter (operator_connected : Bool) (fps : ℚ)
    (captureOk sendOk : Bool) (elapsed : ℚ) : IterResult :=
  if operator_connected then
    if captureOk then
      if sendOk then
        IterResult.next [FrameEvent.capture, FrameEvent.send,
                         FrameEvent.sleep (max 0 (1 / fps - elapsed))]
      else IterResult.brk [FrameEvent.capture]
    else IterResult.brk []
  else
    IterResult.next [FrameEvent.sleep (1 / 2)]

instance : DecidableEq Msg := fun a b => List.hasDecEq a b

instance : DecidableEq Inbound := fun a b =>
  match a, b with
  | Inbound.binary, Inbound.binary => isTrue rfl
  | Inbound.badText, Inbound.badText => isTrue rfl
  | Inbound.msg x, Inbound.msg y =>
    match decEq x y with
    | isTrue hxy => isTrue (by rw [hxy])
    | isFalse hxy => isFalse (by intro hc; cases hc; exact hxy rfl)
  | Inbound.binary, Inbound.badText => isFalse (by intro hc; cases hc)
  | Inbound.binary, Inbound.msg _ => isFalse (by intro hc; cases hc)
  | Inbound.badText, Inbound.binary => isFalse (by intro hc; cases hc)
  | Inbound.badText, Inbound.msg _ => isFalse (by intro hc; cases hc)
  | Inbound.msg _, Inbound.binary => isFalse (by intro hc; cases hc)
  | Inbound.msg _, Inbound.badText => isFalse (by intro hc; cases hc)

instance : DecidableEq RecvResult := fun a b =>
  match a, b with
  | RecvResult.cont c1 s1, RecvResult.cont c2 s2 =>
    match decEq c1 c2, decEq s1 s2 with
    | isTrue h1, isTrue h2 => isTrue (by rw [h1, h2])
    | isFalse h1, _ => isFalse (by intro hc; cases hc; exact h1 rfl)
    | _, isFalse h2 => isFalse (by intro hc; cases hc; exact h2 rfl)
  | RecvResult.brk c1, RecvResult.brk c2 =>
    match decEq c1 c2 with
    | isTrue h1 => isTrue (by rw [h1])
    | isFalse h1 => isFalse (by intro hc; cases hc; exact h1 rfl)
  | RecvResult.raised e1 c1, RecvResult.raised e2 c2 =>
    match decEq e1 e2, decEq c1 c2 with
    | isTrue h1, isTrue h2 => isTrue (by rw [h1, h2])
    | isFalse h1, _ => isFalse (by intro hc; cases hc; exact h1 rfl)
    | _, isFalse h2 => isFalse (by intro hc; cases hc; exact h2 rfl)
  | RecvResult.cont _ _, RecvResult.brk _ => isFalse (by intro hc; cases hc)
  | RecvResult.cont _ _, RecvResult.raised _ _ => isFalse (by intro hc; cases hc)
  | RecvResult.brk _, RecvResult.cont _ _ => isFalse (by intro hc; cases hc)
  | RecvResult.brk _, RecvResult.raised _ _ => isFalse (by intro hc; cases hc)
  | RecvResult.raised _ _, RecvResult.cont _ _ => isFalse (by intro hc; cases hc)
  | RecvResult.raised _ _, RecvResult.brk _ => isFalse (by intro hc; cases hc)

instance : DecidableEq LoopResult := fun a b =>
  match a, b with
  | LoopResult.finished c1, LoopResult.finished c2 =>
    match decEq c1 c2 with
    | isTrue h1 => isTrue (by rw [h1])
    | isFalse h1 => isFalse (by intro hc; cases hc; exact h1 rfl)
  | LoopResult.raised e1 c1, LoopResult.raised e2 c2 =>
    match decEq e1 e2, decEq c1 c2 with
    | isTrue h1, isTrue h2 => isTrue (by rw [h1, h2])
    | isFalse h1, _ => isFalse (by intro hc; cases hc; exact h1 rfl)
    | _, isFalse h2 => isFalse (by intro hc; cases hc; exact h2 rfl)
  | LoopResult.finished _, LoopResult.raised _ _ => isFalse (by intro hc; cases hc)
  | LoopResult.raised _ _, LoopResult.finished _ => isFalse (by intro hc; cases hc)

/-! ## Helper lemmas about the receive loops -/

lemma recvStep_disc (h : InputHandler) (inj : NativeAction → Except PyErr Unit)
    (c : ClientState) (fs : Msg) (hty : fs.type? = some "client_disconnected") :
    recvStep h inj c (Inbound.msg fs) = RecvResult.brk { c with running := false } := by
  simp only [recvStep, hty]
  rw [if_neg (by decide), if_neg (by decide), if_neg (by decide),
      if_neg (by decide)]
  simp

lemma recvStep_brk_inv (h : InputHandler) (inj : NativeAction → Except PyErr Unit)
    (c : ClientState) (m : Inbound) (r : ClientState)
    (hb : recvStep h inj c m = RecvResult.brk r) :
    ∃ fs, m = Inbound.msg fs ∧ fs.type? = some "client_disconnected" ∧
      r = { c with running := false } := by
  cases m with
  | binary => simp [recvStep] at hb
  | badText => simp [recvStep] at hb
  | msg fs =>
    refine ⟨fs, rfl, ?_⟩
    simp only [recvStep] at hb
    split_ifs at hb with h1 h2 h3 h4 h5
    · cases hget : fs.get? "sessionId" with
      | none => rw [hget] at hb; cases hb
      | some sid =>
        rw [hget] at hb
        cases hpin : fs.get? "pin" with
        | none => rw [hpin] at hb; cases hb
        | some p => rw [hpin] at hb; cases hb
    · injection hb with hr
      exact ⟨h5, hr.symm⟩

lemma recvStepWin_ne_brk (h : InputHandler) (inj : NativeAction → Except PyErr Unit)
    (c : ClientState) (m : Inbound) (r : ClientState) :
    recvStepWin h inj c m ≠ RecvResult.brk r := by
  intro hb
  cases m with
  | binary => simp [recvStepWin] at hb
  | badText => simp [recvStepWin] at hb
  | msg fs =>
    simp only [recvStepWin] at hb
    split_ifs at hb with h1 h2 h3 h4
    cases hget : fs.get? "sessionId" with
    | none => rw [hget] at hb; cases hb
    | some sid =>
      rw [hget] at hb
      cases hpin : fs.get? "pin" with
      | none => rw [hpin] at hb; cases hb
      | some p => rw [hpin] at hb; cases hb

lemma recvStepWin_unrecognized_cont (h : InputHandler)
    (inj : NativeAction → Except PyErr Unit) (c : ClientState) (fs : Msg)
    (h1 : fs.type? ≠ some "registered")
    (h2 : fs.type? ≠ some "operator_connected")
    (h3 : fs.type? ≠ some "operator_disconnected")
    (h4 : isInputType fs.type? = false) :
    recvStepWin h inj c (Inbound.msg fs) = RecvResult.cont c [] := by
  simp only [recvStepWin]
  rw [if_neg h1, if_neg h2, if_neg h3, if_neg (by simp [h4])]

lemma mem_recognized_of_mem_input (s : String) (hmem : s ∈ inputTypes) :
    s ∈ recognizedTypes := by
  simp only [inputTypes, List.mem_cons, List.not_mem_nil, or_false] at hmem
  rcases hmem with h | h | h | h | h | h <;> subst h <;> decide

lemma recvStep_unrecognized_cont (h : InputHandler)
    (inj : NativeAction → Except PyErr Unit) (c : ClientState) (fs : Msg)
    (h1 : fs.type? ≠ some "registered")
    (h2 : fs.type? ≠ some "operator_connected")
    (h3 : fs.type? ≠ some "operator_disconnected")
    (h4 : isInputType fs.type? = false)
    (h5 : fs.type? ≠ some "client_disconnected") :
    recvStep h inj c (Inbound.msg fs) = RecvResult.cont c [] := by
  simp only [recvStep]
  rw [if_neg h1, if_neg h2, if_neg h3, if_neg (by simp [h4]), if_neg h5]

lemma isInputType_false_of_not_recognized (s : String)
    (hs : s ∉ recognizedTypes) : isInputType (some s) = false := by
  simp only [isInputType]
  exact decide_eq_false (fun hmem => hs (mem_recognized_of_mem_input s hmem))

/-! ## C1 -/

/-- **C1** (amended).  In the console `RemoteSupportClient`, a message
whose decoded type is `client_disconnected` ends the receive loop at
once and without an error (`LoopResult.finished`, never `raised`), the
terminal `running` flag is cleared, and the supervisor does not re-enter
the Connecting state (`reconnects` is false); moreover
`client_disconnected` is the only message type that ends the console
receive loop without being an error.  In the Windows `NetworkClient`,
however, `_receive_messages` has no `client_disconnected` branch: the
message falls through the `elif` chain like an unrecognized type, the
loop continues with the state unchanged, and no message type at all ends
the Windows receive loop without being an error. -/
theorem c1_client_disconnected_console_only (h : InputHandler)
    (inj : NativeAction → Except PyErr Unit) (c : ClientState) (fs : Msg)
    (ms : List Inbound) (hty : fs.type? = some "client_disconnected") :
    recvLoop h inj c (Inbound.msg fs :: ms) =
      LoopResult.finished { c with running := false } ∧
    reconnects { c with running := false } = false ∧
    (∀ m r, recvStep h inj c m = RecvResult.brk r →
      ∃ gs, m = Inbound.msg gs ∧ gs.type? = some "client_disconnected") ∧
    recvStepWin h inj c (Inbound.msg fs) = RecvResult.cont c [] ∧
    (∀ m r, recvStepWin h inj c m ≠ RecvResult.brk r) := by
  refine ⟨?_, rfl, ?_, ?_, ?_⟩
  · simp only [recvLoop, recvStep_disc h inj c fs hty]
  · intro m r hb
    obtain ⟨gs, hm, hgs, _⟩ := recvStep_brk_inv h inj c m r hb
    exact ⟨gs, hm, hgs⟩
  · refine recvStepWin_unrecognized_cont h inj c fs ?_ ?_ ?_ ?_ <;> rw [hty]
    · decide
    · decide
    · decide
    · decide
  · intro m r
    exact recvStepWin_ne_brk h inj c m r

/-- **C1** witness: the console loop on a concrete
`client_disconnected` message stops at once with the flag cleared. -/
theorem c1_client_disconnected_console_only_witness :
    Msg.type? discMsg = some "client_disconnected" ∧
    recvLoop h0 inj0 s0 (Inbound.msg discMsg :: [Inbound.binary]) =
      LoopResult.finished { s0 with running := false } :=
  ⟨by decide,
   (c1_client_disconnected_console_only h0 inj0 s0 discMsg [Inbound.binary]
      (by decide)).1⟩

/-- **C1** counterexample: in the Windows `NetworkClient`, a concrete
`client_disconnected` message does not end the receive loop and does not
clear the terminal flag — the step continues with the state unchanged
(`running` still true), refuting the claim for that variant. -/
theorem c1_windows_counterexample :
    recvStepWin h0 inj0 s0 (Inbound.msg discMsg) = RecvResult.cont s0 [] ∧
    s0.running = true ∧
    recvLoopWin h0 inj0 s0 [Inbound.msg discMsg] ≠
      LoopResult.finished { s0 with running := false } := by
  refine ⟨by decide, rfl, by decide⟩

/-! ## C7 -/

/-- **C7**.  In both receive loops, a binary payload and a text payload
that fails JSON decoding are dropped silently: the step continues with
the session state unchanged and nothing sent, the loop goes on with the
next message, and a decoded message whose type has no branch (not one of
the recognized types) is likewise ignored with the state unchanged. -/
theorem c7_protocol_errors_dropped (h : InputHandler)
    (inj : NativeAction → Except PyErr Unit) (c : ClientState)
    (ms : List Inbound) :
    recvStep h inj c Inbound.binary = RecvResult.cont c [] ∧
    recvStep h inj c Inbound.badText = RecvResult.cont c [] ∧
    recvStepWin h inj c Inbound.binary = RecvResult.cont c [] ∧
    recvStepWin h inj c Inbound.badText = RecvResult.cont c [] ∧
    recvLoop h inj c (Inbound.binary :: ms) = recvLoop h inj c ms ∧
    recvLoop h inj c (Inbound.badText :: ms) = recvLoop h inj c ms ∧
    recvLoopWin h inj c (Inbound.binary :: ms) = recvLoopWin h inj c ms ∧
    recvLoopWin h inj c (Inbound.badText :: ms) = recvLoopWin h inj c ms ∧
    (∀ fs, (∀ s, fs.type? = some s → s ∉ recognizedTypes) →
      recvStep h inj c (Inbound.msg fs) = RecvResult.cont c [] ∧
      recvStepWin h inj c (Inbound.msg fs) = RecvResult.cont c []) := by
  refine ⟨rfl, rfl, rfl, rfl, rfl, rfl, rfl, rfl, ?_⟩
  intro fs hun
  have h1 : fs.type? ≠ some "registered" := fun hc => hun _ hc (by decide)
  have h2 : fs.type? ≠ some "operator_connected" := fun hc => hun _ hc (by decide)
  have h3 : fs.type? ≠ some "operator_disconnected" := fun hc => hun _ hc (by decide)
  have h5 : fs.type? ≠ some "client_disconnected" := fun hc => hun _ hc (by decide)
  have h4 : isInputType fs.type? = false := by
    cases ht : fs.type? with
    | none => rfl
    | some s => exact isInputType_false_of_not_recognized s (hun s ht)
  exact ⟨recvStep_unrecognized_cont h inj c fs h1 h2 h3 h4 h5,
         recvStepWin_unrecognized_cont h inj c fs h1 h2 h3 h4⟩

/-- **C7** witness: a concrete unrecognized message type (`"ping"`) is
ignored by both variants with the state unchanged. -/
theorem c7_protocol_errors_dropped_witness :
    recvStep h0 inj0 s0 (Inbound.msg [("type", JVal.jstr "ping")]) =
      RecvResult.cont s0 [] ∧
    recvStepWin h0 inj0 s0 (Inbound.msg [("type", JVal.jstr "ping")]) =
      RecvResult.cont s0 [] :=
  (c7_protocol_errors_dropped h0 inj0 s0 []).2.2.2.2.2.2.2.2
    [("type", JVal.jstr "ping")]
    (by
      intro s hs
      rw [show Msg.type? [("type", JVal.jstr "ping")] = some "ping" from rfl] at hs
      injection hs with h
      subst h
      decide)

/-! ## C10 -/

/-- **C10**.  For a decodable `registered` message, in both variants:
if `sessionId` is absent the step raises an uncaught `KeyError` and the
whole receive loop terminates with that error (and since `running` is
untouched the supervisor's backoff/reconnect path re-enters the connect
loop); if `sessionId` is present but `pin` is absent, a `KeyError` is
raised after `session_id` has already been assigned; if both are
present, both fields are assigned and only then — carried in the same
step result — is the `screen_info` geometry announcement sent.  This
contrasts with non-decodable payloads, which C7 shows are dropped
silently. -/
theorem c10_registered_keyerror (h : InputHandler)
    (inj : NativeAction → Except PyErr Unit) (c : ClientState) (fs : Msg)
    (ms : List Inbound) (hty : fs.type? = some "registered") :
    (fs.get? "sessionId" = none →
      recvStep h inj c (Inbound.msg fs) =
        RecvResult.raised (PyErr.keyError "sessionId") c ∧
      recvStepWin h inj c (Inbound.msg fs) =
        RecvResult.raised (PyErr.keyError "sessionId") c ∧
      recvLoop h inj c (Inbound.msg fs :: ms) =
        LoopResult.raised (PyErr.keyError "sessionId") c ∧
      recvLoopWin h inj c (Inbound.msg fs :: ms) =
        LoopResult.raised (PyErr.keyError "sessionId") c ∧
      (c.running = true → reconnects c = true)) ∧
    (∀ sid, fs.get? "sessionId" = some sid → fs.get? "pin" = none →
      recvStep h inj c (Inbound.msg fs) =
        RecvResult.raised (PyErr.keyError "pin") { c with session_id := some sid } ∧
      recvStepWin h inj c (Inbound.msg fs) =
        RecvResult.raised (PyErr.keyError "pin") { c with session_id := some sid }) ∧
    (∀ sid p, fs.get? "sessionId" = some sid → fs.get? "pin" = some p →
      recvStep h inj c (Inbound.msg fs) =
        RecvResult.cont { c with session_id := some sid, pin := some p }
          [OutMsg.screenInfo h.screen_width h.screen_height] ∧
      recvStepWin h inj c (Inbound.msg fs) =
        RecvResult.cont { c with session_id := some sid, pin := some p }
          [OutMsg.screenInfo h.screen_width h.screen_height]) := by
  have hcons : recvStep h inj c (Inbound.msg fs) =
      (match fs.get? "sessionId" with
       | none => RecvResult.raised (PyErr.keyError "sessionId") c
       | some sid =>
         match fs.get? "pin" with
         | none => RecvResult.raised (PyErr.keyError "pin")
             { c with session_id := some sid }
         | some p => RecvResult.cont { c with session_id := some sid, pin := some p }
             [OutMsg.screenInfo h.screen_width h.screen_height]) := by
    simp only [recvStep, hty]
    rw [if_pos trivial]
  have hconsW : recvStepWin h inj c (Inbound.msg fs) =
      (match fs.get? "sessionId" with
       | none => RecvResult.raised (PyErr.keyError "sessionId") c
       | some sid =>
         match fs.get? "pin" with
         | none => RecvResult.raised (PyErr.keyError "pin")
             { c with session_id := some sid }
         | some p => RecvResult.cont { c with session_id := some sid, pin := some p }
             [OutMsg.screenInfo h.screen_width h.screen_height]) := by
    simp only [recvStepWin, hty]
    rw [if_pos trivial]
  refine ⟨?_, ?_, ?_⟩
  · intro hsid
    refine ⟨by rw [hcons, hsid], by rw [hconsW, hsid], ?_, ?_, fun hr => hr⟩
    · simp only [recvLoop]
      rw [hcons, hsid]
    · simp only [recvLoopWin]
      rw [hconsW, hsid]
  · intro sid hsid hpin
    exact ⟨by rw [hcons, hsid, hpin], by rw [hconsW, hsid, hpin]⟩
  · intro sid p hsid hpin
    exact ⟨by rw [hcons, hsid, hpin], by rw [hconsW, hsid, hpin]⟩

/-- **C10** witness: a concrete `registered` message lacking both fields
crashes the concrete receive loop with `KeyError("sessionId")`, and a
complete one assigns both fields and sends the geometry announcement. -/
theorem c10_registered_keyerror_witness :
    recvLoop h0 inj0 s0 [Inbound.msg [("type", JVal.jstr "registered")]] =
      LoopResult.raised (PyErr.keyError "sessionId") s0 ∧
    recvStep h0 inj0 s0
        (Inbound.msg [("type", JVal.jstr "registered"),
                      ("sessionId", JVal.jstr "s1"), ("pin", JVal.jstr "482913")]) =
      RecvResult.cont { s0 with session_id := some (JVal.jstr "s1"),
                                pin := some (JVal.jstr "482913") }
        [OutMsg.screenInfo 1920 1080] :=
  ⟨((c10_registered_keyerror h0 inj0 s0 [("type", JVal.jstr "registered")] []
      (by decide)).1 (by decide)).2.2.1,
   ((c10_registered_keyerror h0 inj0 s0
      [("type", JVal.jstr "registered"),
       ("sessionId", JVal.jstr "s1"), ("pin", JVal.jstr "482913")] []
      (by decide)).2.2 (JVal.jstr "s1") (JVal.jstr "482913")
      (by decide) (by decide)).1⟩

/-! ## C6 -/

lemma recvStep_input_cont (h : InputHandler) (inj : NativeAction → Except PyErr Unit)
    (c : ClientState) (fs : Msg) (hin : isInputType fs.type? = true) :
    recvStep h inj c (Inbound.msg fs) = RecvResult.cont c [] := by
  cases ht : fs.type? with
  | none => rw [ht] at hin; cases hin
  | some s =>
    rw [ht] at hin
    have hs : s ∈ inputTypes := of_decide_eq_true hin
    have hs1 : ¬ s = "registered" := by rintro rfl; revert hs; decide
    have hs2 : ¬ s = "operator_connected" := by rintro rfl; revert hs; decide
    have hs3 : ¬ s = "operator_disconnected" := by rintro rfl; revert hs; decide
    simp only [recvStep, ht]
    rw [if_neg (by simp [hs1]), if_neg (by simp [hs2]), if_neg (by simp [hs3]),
        if_pos hin]

lemma recvStepWin_input_cont (h : InputHandler) (inj : NativeAction → Except PyErr Unit)
    (c : ClientState) (fs : Msg) (hin : isInputType fs.type? = true) :
    recvStepWin h inj c (Inbound.msg fs) = RecvResult.cont c [] := by
  cases ht : fs.type? with
  | none => rw [ht] at hin; cases hin
  | some s =>
    rw [ht] at hin
    have hs : s ∈ inputTypes := of_decide_eq_true hin
    have hs1 : ¬ s = "registered" := by rintro rfl; revert hs; decide
    have hs2 : ¬ s = "operator_connected" := by rintro rfl; revert hs; decide
    have hs3 : ¬ s = "operator_disconnected" := by rintro rfl; revert hs; decide
    simp only [recvStepWin, ht]
    rw [if_neg (by simp [hs1]), if_neg (by simp [hs2]), if_neg (by simp [hs3]),
        if_pos hin]

/-- **C6**.  `InputHandler.handle` never propagates an exception to its
caller: for every message and every behavior of the injection provider,
the call returns normally (`Except.ok`) — when the dispatch body
succeeds the result is plain success, and when any step of the body
(field resolution or the native action) raises, the exception is caught
at the dispatch boundary and merely reported (`HandleResult.logged`).
Consequently an input-event message never ends either receive loop: the
step always continues with the session state unchanged. -/
theorem c6_handle_catches_all (h : InputHandler)
    (inj : NativeAction → Except PyErr Unit) (m : Msg) :
    (∃ r, h.handle inj m = Except.ok r ∧
      (handleBody h inj m = Except.ok () → r = HandleResult.ok) ∧
      (∀ e, handleBody h inj m = Except.error e → r = HandleResult.logged e)) ∧
    (∀ c fs, isInputType fs.type? = true →
      recvStep h inj c (Inbound.msg fs) = RecvResult.cont c [] ∧
      recvStepWin h inj c (Inbound.msg fs) = RecvResult.cont c []) := by
  constructor
  · cases hb : handleBody h inj m with
    | ok u =>
      cases u
      exact ⟨HandleResult.ok, by simp [InputHandler.handle, hb], fun _ => rfl,
             fun e he => nomatch he⟩
    | error e =>
      refine ⟨HandleResult.logged e, by simp [InputHandler.handle, hb], ?_, ?_⟩
      · intro hok
        exact Except.noConfusion hok
      · intro e1 he1
        cases he1
        rfl
  · intro c fs hin
    exact ⟨recvStep_input_cont h inj c fs hin, recvStepWin_input_cont h inj c fs hin⟩

/-- **C6** witness: on a concrete `mouse_move` message lacking its
coordinate fields, the dispatch body raises `KeyError("x")`, yet
`handle` returns normally with the error merely logged, and the receive
loop continues unchanged. -/
theorem c6_handle_catches_all_witness :
    h0.handle inj0 [("type", JVal.jstr "mouse_move")] =
      Except.ok (HandleResult.logged (PyErr.keyError "x")) ∧
    recvStep h0 inj0 s0 (Inbound.msg [("type", JVal.jstr "mouse_move")]) =
      RecvResult.cont s0 [] := by
  obtain ⟨⟨r, hr, _, herr⟩, hloop⟩ :=
    c6_handle_catches_all h0 inj0 [("type", JVal.jstr "mouse_move")]
  have hbody : handleBody h0 inj0 [("type", JVal.jstr "mouse_move")] =
      Except.error (PyErr.keyError "x") := rfl
  refine ⟨?_, (hloop s0 [("type", JVal.jstr "mouse_move")] rfl).1⟩
  rw [hr, herr _ hbody]

/-! ## C3 -/

/-- **C3**.  Key translation: a key present in the lookup table maps to
its table entry; a key not in the table is lower-cased when it is a
single character and passed through unchanged otherwise.  A `key_combo`
message translates each key of the ordered list independently by this
same rule (`List.map mapKey`), preserving the input order index by
index, and submits the result as one simultaneous `hotkey` action; in
particular `["Control", "Shift", "a"]` translates to
`["ctrl", "shift", "a"]`. -/
theorem c3_key_translation :
    (∀ k v, lookupKM k = some v → mapKey k = v) ∧
    (∀ k, lookupKM k = none → k.length = 1 → mapKey k = pyLower k) ∧
    (∀ k, lookupKM k = none → k.length ≠ 1 → mapKey k = k) ∧
    (∀ (h : InputHandler) (inj : NativeAction → Except PyErr Unit)
       (ks : List String),
      handleBody h inj [("type", JVal.jstr "key_combo"), ("keys", JVal.jlist ks)] =
        inj (NativeAction.hotkey (List.map mapKey ks))) ∧
    (∀ (ks : List String) (i : ℕ),
      (List.map mapKey ks)[i]? = Option.map mapKey ks[i]?) ∧
    List.map mapKey ["Control", "Shift", "a"] = ["ctrl", "shift", "a"] := by
  refine ⟨?_, ?_, ?_, ?_, ?_, by decide⟩
  · intro k v hkv
    simp [mapKey, hkv]
  · intro k hk hlen
    simp [mapKey, hk, hlen]
  · intro k hk hlen
    simp [mapKey, hk, hlen]
  · intro h inj ks
    rfl
  · intro ks i
    simp [List.getElem?_map]

/-- **C3** witness: concrete keys exercising all three translation
cases. -/
theorem c3_key_translation_witness :
    mapKey "Control" = "ctrl" ∧
    mapKey "A" = pyLower "A" ∧
    mapKey "MediaPlay" = "MediaPlay" :=
  ⟨c3_key_translation.1 "Control" "ctrl" (by decide),
   c3_key_translation.2.1 "A" (by decide) (by decide),
   c3_key_translation.2.2.1 "MediaPlay" (by decide) (by decide)⟩

/-! ## C9 -/

/-- **C9**.  Button-code resolution for click and double-click events:
codes 0, 1, 2 map to pyautogui's `"left"` (the primary button),
`"middle"` and `"right"` (the secondary button), every other value
resolves to `"left"`, and a missing `button` field defaults
(`msg.get("button", 0)`) to code 0 and hence to `"left"`. -/
theorem c9_button_codes :
    resolveButton (JVal.jnum 0) = "left" ∧
    resolveButton (JVal.jnum 1) = "middle" ∧
    resolveButton (JVal.jnum 2) = "right" ∧
    (∀ v : JVal, v ≠ JVal.jnum 0 → v ≠ JVal.jnum 1 → v ≠ JVal.jnum 2 →
      resolveButton v = "left") ∧
    (∀ m : Msg, m.get? "button" = none →
      resolveButton (m.getD "button" (JVal.jnum 0)) = "left") := by
  refine ⟨rfl, by decide, by decide, ?_, ?_⟩
  · intro v hv0 hv1 hv2
    simp [resolveButton, hv0, hv1, hv2]
  · intro m hm
    simp [Msg.getD, hm]
    rfl

/-- **C9** witness: an unrecognized concrete code (7) and a message with
no `button` field both resolve to the primary button. -/
theorem c9_button_codes_witness :
    resolveButton (JVal.jnum 7) = "left" ∧
    resolveButton (Msg.getD [] "button" (JVal.jnum 0)) = "left" :=
  ⟨c9_button_codes.2.2.2.1 (JVal.jnum 7) (by decide) (by decide) (by decide),
   c9_button_codes.2.2.2.2 [] rfl⟩

/-! ## C2 -/

/-- **C2** counterexample: the claimed round-to-nearest formula fails on
the code, which truncates.  On a 1920×1080 screen with
`xRatio = 1/1024` (exactly representable in binary floating point),
`xRatio * 1920 = 1.875`: the code's `int()` yields 1 while rounding to
the nearest integer yields 2. -/
theorem c2_round_counterexample :
    (InputHandler.mk 1920 1080).scale_coords (1/1024) 0 ≠
      (round ((1/1024 : ℚ) * 1920), round ((0 : ℚ) * 1080)) := by
  have hL : (InputHandler.mk 1920 1080).scale_coords (1/1024) 0 = (1, 0) := by
    show (pyInt (1/1024 * (1920:ℕ)), pyInt (0 * (1080:ℕ))) = (1, 0)
    unfold pyInt
    rw [if_pos (by norm_num), if_pos (by norm_num)]
    norm_num
  have hR : round ((1/1024 : ℚ) * 1920) = 2 := by
    rw [round_eq]
    norm_num
  rw [hL, hR]
  intro hc
  exact absurd (congrArg Prod.fst hc) (by norm_num)

/-- **C2** (amended).  The translated absolute coordinates are
`(int(xRatio * screenWidth), int(yRatio * screenHeight))` where `int` is
Python's truncation toward zero — for the nonnegative ratios this equals
the floor, not round-to-nearest.  Out-of-range ratios (such as ratios
above 1) are not clamped: they pass through the very same formula, as
the hypotheses only require nonnegativity. -/
theorem c2_scale_truncates (w h : ℕ) (x y : ℚ) (hx : 0 ≤ x) (hy : 0 ≤ y) :
    (InputHandler.mk w h).scale_coords x y = (⌊x * w⌋, ⌊y * h⌋) := by
  unfold InputHandler.scale_coords pyInt
  rw [if_pos (mul_nonneg hx (Nat.cast_nonneg w)),
      if_pos (mul_nonneg hy (Nat.cast_nonneg h))]

/-- **C2** witness: an out-of-range ratio `3/2` on a 1920×1080 screen
resolves (unclamped) to the off-screen x-coordinate 2880. -/
theorem c2_scale_truncates_witness :
    (0:ℚ) ≤ 3/2 ∧ (0:ℚ) ≤ 1/2 ∧
    (InputHandler.mk 1920 1080).scale_coords (3/2) (1/2) = (2880, 540) := by
  refine ⟨by norm_num, by norm_num, ?_⟩
  rw [c2_scale_truncates 1920 1080 (3/2) (1/2) (by norm_num) (by norm_num)]
  norm_num

/-! ## C5 -/

/-- **C5**.  On `[0,1]×[0,1]` the coordinate scaling is monotonic in
each argument, and it maps `(1,1)` to `(screenWidth, screenHeight)` and
`(0,0)` to `(0,0)`. -/
theorem c5_scale_monotone_endpoints (W H : ℕ) (x1 x2 y1 y2 : ℚ)
    (hx1 : 0 ≤ x1) (hx12 : x1 ≤ x2) (hx2 : x2 ≤ 1)
    (hy1 : 0 ≤ y1) (hy12 : y1 ≤ y2) (hy2 : y2 ≤ 1) :
    ((InputHandler.mk W H).scale_coords x1 y1).1 ≤
      ((InputHandler.mk W H).scale_coords x2 y1).1 ∧
    ((InputHandler.mk W H).scale_coords x1 y1).2 ≤
      ((InputHandler.mk W H).scale_coords x1 y2).2 ∧
    (InputHandler.mk W H).scale_coords 1 1 = ((W : ℤ), (H : ℤ)) ∧
    (InputHandler.mk W H).scale_coords 0 0 = (0, 0) := by
  have cw : (0:ℚ) ≤ (W:ℚ) := Nat.cast_nonneg W
  have ch : (0:ℚ) ≤ (H:ℚ) := Nat.cast_nonneg H
  refine ⟨?_, ?_, ?_, ?_⟩
  · show pyInt (x1 * W) ≤ pyInt (x2 * W)
    unfold pyInt
    rw [if_pos (mul_nonneg hx1 cw), if_pos (mul_nonneg (hx1.trans hx12) cw)]
    exact Int.floor_le_floor (mul_le_mul_of_nonneg_right hx12 cw)
  · show pyInt (y1 * H) ≤ pyInt (y2 * H)
    unfold pyInt
    rw [if_pos (mul_nonneg hy1 ch), if_pos (mul_nonneg (hy1.trans hy12) ch)]
    exact Int.floor_le_floor (mul_le_mul_of_nonneg_right hy12 ch)
  · unfold InputHandler.scale_coords pyInt
    rw [one_mul, one_mul, if_pos cw, if_pos ch, Int.floor_natCast, Int.floor_natCast]
  · unfold InputHandler.scale_coords pyInt
    rw [zero_mul, zero_mul, if_pos le_rfl, Int.floor_zero]

/-- **C5** witness: the endpoint laws on a concrete 1920×1080 screen,
obtained from concrete in-range ratios. -/
theorem c5_scale_monotone_endpoints_witness :
    (InputHandler.mk 1920 1080).scale_coords 1 1 = (((1920:ℕ) : ℤ), ((1080:ℕ) : ℤ)) ∧
    (InputHandler.mk 1920 1080).scale_coords 0 0 = (0, 0) :=
  ⟨(c5_scale_monotone_endpoints 1920 1080 (1/4) (1/2) 0 1
      (by norm_num) (by norm_num) (by norm_num)
      (by norm_num) (by norm_num) (by norm_num)).2.2.1,
   (c5_scale_monotone_endpoints 1920 1080 (1/4) (1/2) 0 1
      (by norm_num) (by norm_num) (by norm_num)
      (by norm_num) (by norm_num) (by norm_num)).2.2.2⟩

/-! ## C4 -/

/-- **C4**.  The downsizing policy of `ScreenCapturer.capture`: when a
raw dimension exceeds the configured maximum on either axis, the output
is `(int(w * r), int(h * r))` with `r = min(maxDim/w, maxDim/h)` —
truncation of nonnegative values, i.e. floor — and both output
dimensions (hence their maximum) are bounded by `maxDim`; the common
ratio `r` preserves the aspect ratio up to the rounding.  When neither
dimension exceeds the maximum the image size is left unchanged. -/
theorem c4_capture_downsizing (max_dim w h : ℕ) (hw : 0 < w) (hh : 0 < h) :
    (w > max_dim ∨ h > max_dim →
      capture_dims max_dim w h =
        (⌊(w : ℚ) * min ((max_dim : ℚ) / w) ((max_dim : ℚ) / h)⌋,
         ⌊(h : ℚ) * min ((max_dim : ℚ) / w) ((max_dim : ℚ) / h)⌋) ∧
      max (capture_dims max_dim w h).1 (capture_dims max_dim w h).2 ≤ (max_dim : ℤ)) ∧
    (w ≤ max_dim ∧ h ≤ max_dim → capture_dims max_dim w h = ((w : ℤ), (h : ℤ))) := by
  have hw' : (0:ℚ) < (w:ℚ) := by exact_mod_cast hw
  have hh' : (0:ℚ) < (h:ℚ) := by exact_mod_cast hh
  have hr0 : 0 ≤ min ((max_dim : ℚ) / w) ((max_dim : ℚ) / h) :=
    le_min (div_nonneg (Nat.cast_nonneg _) hw'.le)
      (div_nonneg (Nat.cast_nonneg _) hh'.le)
  have hwr : (w:ℚ) * min ((max_dim : ℚ) / w) ((max_dim : ℚ) / h) ≤ (max_dim : ℚ) := by
    calc (w:ℚ) * min ((max_dim : ℚ) / w) ((max_dim : ℚ) / h)
        ≤ (w:ℚ) * ((max_dim : ℚ) / w) :=
          mul_le_mul_of_nonneg_left (min_le_left _ _) (Nat.cast_nonneg w)
      _ = (max_dim : ℚ) := by field_simp
  have hhr : (h:ℚ) * min ((max_dim : ℚ) / w) ((max_dim : ℚ) / h) ≤ (max_dim : ℚ) := by
    calc (h:ℚ) * min ((max_dim : ℚ) / w) ((max_dim : ℚ) / h)
        ≤ (h:ℚ) * ((max_dim : ℚ) / h) :=
          mul_le_mul_of_nonneg_left (min_le_right _ _) (Nat.cast_nonneg h)
      _ = (max_dim : ℚ) := by field_simp
  have heq : w > max_dim ∨ h > max_dim →
      capture_dims max_dim w h =
        (⌊(w : ℚ) * min ((max_dim : ℚ) / w) ((max_dim : ℚ) / h)⌋,
         ⌊(h : ℚ) * min ((max_dim : ℚ) / w) ((max_dim : ℚ) / h)⌋) := by
    intro hbig
    simp only [capture_dims]
    rw [if_pos hbig]
    unfold pyInt
    rw [if_pos (mul_nonneg (Nat.cast_nonneg w) hr0),
        if_pos (mul_nonneg (Nat.cast_nonneg h) hr0)]
  constructor
  · intro hbig
    refine ⟨heq hbig, ?_⟩
    rw [heq hbig]
    simp only [max_le_iff]
    exact ⟨le_trans (Int.floor_le_floor hwr) (le_of_eq (Int.floor_natCast _)),
           le_trans (Int.floor_le_floor hhr) (le_of_eq (Int.floor_natCast _))⟩
  · rintro ⟨hle1, hle2⟩
    simp only [capture_dims]
    rw [if_neg]
    push_neg
    exact ⟨hle1, hle2⟩

/-- **C4** witness: a 3840×2160 frame against the default maximum 1920
downsizes to exactly 1920×1080, within the bound. -/
theorem c4_capture_downsizing_witness :
    (0 < 3840 ∧ 0 < 2160 ∧ (3840 > 1920 ∨ 2160 > 1920)) ∧
    capture_dims 1920 3840 2160 = (1920, 1080) ∧
    max (capture_dims 1920 3840 2160).1 (capture_dims 1920 3840 2160).2 ≤ (1920:ℤ) := by
  have happ := (c4_capture_downsizing 1920 3840 2160 (by norm_num) (by norm_num)).1
    (by norm_num)
  refine ⟨⟨by norm_num, by norm_num, by norm_num⟩, ?_, happ.2⟩
  rw [happ.1]
  norm_num [min_def]

/-! ## C8 -/

/-- **C8** counterexample: with an operator attached, a capture that
succeeds and a send that raises (`elapsed = 0`, fps 10), the iteration
does not perform the capture–send–sleep sequence the claim promises for
every operator-present iteration: it breaks out of the loop after the
capture, with no sleep at all. -/
theorem c8_failed_send_counterexample :
    sendFramesIter true 10 true false 0 ≠
      IterResult.next [FrameEvent.capture, FrameEvent.send,
                       FrameEvent.sleep (max 0 (1/10 - 0))] ∧
    sendFramesIter true 10 true false 0 = IterResult.brk [FrameEvent.capture] :=
  ⟨by decide, rfl⟩

/-- **C8** (amended).  In every iteration of `_send_frames`: with no
operator attached the iteration sleeps the coarse 0.5 poll interval and
never invokes the capture/encode pipeline; with an operator attached it
attempts exactly one capture and, when the capture and the transport
write both succeed, sleeps `max(0, 1/fps - elapsed)` before the next
iteration; when the capture or the write raises, the streamer breaks out
of the loop without sleeping.  In all cases an iteration performs at
most one capture, so at most one frame is in flight at any time. -/
theorem c8_frame_pacing (fps elapsed : ℚ) (op captureOk sendOk : Bool)
    (hfps : 0 < fps) :
    (op = false → sendFramesIter op fps captureOk sendOk elapsed =
      IterResult.next [FrameEvent.sleep (1 / 2)]) ∧
    (op = true → captureOk = true → sendOk = true →
      sendFramesIter op fps captureOk sendOk elapsed =
        IterResult.next [FrameEvent.capture, FrameEvent.send,
          FrameEvent.sleep (max 0 (1 / fps - elapsed))]) ∧
    (op = true → captureOk = false →
      sendFramesIter op fps captureOk sendOk elapsed = IterResult.brk []) ∧
    (op = true → captureOk = true → sendOk = false →
      sendFramesIter op fps captureOk sendOk elapsed =
        IterResult.brk [FrameEvent.capture]) ∧
    ((sendFramesIter op fps captureOk sendOk elapsed).trace.count
        FrameEvent.capture ≤ 1) := by
  refine ⟨?_, ?_, ?_, ?_, ?_⟩
  · rintro rfl
    rfl
  · rintro rfl rfl rfl
    rfl
  · rintro rfl rfl
    cases sendOk <;> rfl
  · rintro rfl rfl rfl
    rfl
  · cases op <;> cases captureOk <;> cases sendOk <;>
      simp [sendFramesIter, IterResult.trace]

/-- **C8** witness: a concrete successful iteration at 10 fps with 50 ms
elapsed sleeps for the remaining 50 ms. -/
theorem c8_frame_pacing_witness :
    (0:ℚ) < 10 ∧
    sendFramesIter true 10 true true (1/20) =
      IterResult.next [FrameEvent.capture, FrameEvent.send,
                       FrameEvent.sleep (max 0 (1/10 - 1/20))] :=
  ⟨by norm_num,
   (c8_frame_pacing 10 (1/20) true true true (by norm_num)).2.1 rfl rfl rfl⟩
